import Mathlib

/-!
Verification of the scene-graph reconciler taught in
src/src/posts/a-technical-breakdown-of-react-three-fiber.mdx.

The JavaScript functions of the article (applyProps, appendChild, removeChild,
insertBefore, the subscribe toggle and animation-loop tick installed by render,
the event manager handleEvent, render and unmountComponentAtNode) are shallowly
embedded below.  Side effects on three.js objects are recorded as explicit
action traces, JavaScript property tables become association lists, and a
JavaScript TypeError raised by a member access on undefined is modelled with
Except (for handleEvent) or an Option String error slot (for unmount).
-/

namespace RTF

/-! ## Values and props (applyProps, article lines 390-456)

A JavaScript value as it occurs in a props mapping.  Reference types
(functions, arrays, constructed objects) carry an identity so that the strict
equality operator of JavaScript can be modelled: primitives compare by value,
reference types by identity. -/

inductive PropVal where
  | num (n : Int)
  | str (s : String)
  | func (id : Nat)
  | arr (id : Nat)
  | objRef (id : Nat) (ctor : String)
deriving Repr, DecidableEq

/-- JavaScript strict equality on prop values: value equality on primitives,
reference identity on functions, arrays and objects. -/
def jsStrictEq : PropVal → PropVal → Bool
  | PropVal.num a, PropVal.num b => a == b
  | PropVal.str a, PropVal.str b => a == b
  | PropVal.func a, PropVal.func b => a == b
  | PropVal.arr a, PropVal.arr b => a == b
  | PropVal.objRef a _, PropVal.objRef b _ => a == b
  | _, _ => false

/-- The name read by value.constructor.name in applyProps. -/
def valCtorName : PropVal → String
  | PropVal.num _ => ("Number")
  | PropVal.str _ => ("String")
  | PropVal.func _ => ("Function")
  | PropVal.arr _ => ("Array")
  | PropVal.objRef _ c => c

/-- typeof v is the string function. -/
def PropVal.isFunc : PropVal → Bool
  | PropVal.func _ => true
  | _ => false

/-- Array.isArray.  An array value carries only its identity: the embedded
operations consult Array.isArray and strict equality, never the elements. -/
def PropVal.isArr : PropVal → Bool
  | PropVal.arr _ => true
  | _ => false

/-- A props mapping, as the ordered entries of a JavaScript object.  Keys of a
JavaScript object are unique; theorems assume that where it matters. -/
abbrev Props := List (String × PropVal)

/-- Property read obj[key] on a props object: undefined when absent. -/
def lookupProp (obj : Props) (key : String) : Option PropVal :=
  (obj.find? (fun kv => kv.1 == key)).map Prod.snd

/-- The current value held by an instance field, described by the capabilities
applyProps inspects: whether it exposes a set method, its constructor name,
whether it is a THREE.Color, and whether it exposes setScalar.  A value
without a set method is plainVal; an absent property is undef. -/
inductive ITarget where
  | undef
  | plainVal (v : PropVal)
  | settable (ctor : String) (isColor : Bool) (hasSetScalar : Bool)
deriving Repr, DecidableEq

/-- A live three.js instance as applyProps sees it: its fields, plus the
out-of-band handler table stored on the invalid property name __handlers
(none models the property being absent). -/
structure PInstance where
  fields : List (String × ITarget)
  handlers : Option Props
deriving Repr, DecidableEq

/-- Read instance[key]: the stored target, or undef when the key is absent. -/
def getField (fields : List (String × ITarget)) (key : String) : ITarget :=
  match fields.find? (fun kv => kv.1 == key) with
  | some kv => kv.2
  | none => ITarget.undef

/-- Assignment instance[key] = v: replace the first binding of key, or add the
property when absent. -/
def setField (fields : List (String × ITarget)) (key : String) (v : ITarget) :
    List (String × ITarget) :=
  match fields with
  | [] => [(key, v)]
  | kv :: rest =>
      if kv.1 == key then (key, v) :: rest else kv :: setField rest key v

/-- One recorded mutation made by applyProps on the instance: target.copy,
target.set spread from an array, target.setScalar, target.set, a plain field
assignment, or the sRGB conversion applied to colors. -/
inductive PropAction where
  | copy (key : String)
  | setMulti (key : String)
  | setScalar (key : String)
  | setSingle (key : String)
  | assign (key : String)
  | convertColor (key : String)
deriving Repr, DecidableEq

/-- pruneKeys of the article (lines 394-400): drop the entries whose key is in
the removal list. -/
def pruneKeys (obj : Props) (keys : List String) : Props :=
  obj.filter (fun kv => !(keys.contains kv.1))

/-- The handler entries of newProps: function values on keys starting with the
event-naming on. -/
def collectHandlers (newProps : Props) : Props :=
  newProps.filter (fun kv => kv.2.isFunc && kv.1.startsWith ("on"))

/-- The keys of newProps whose value is strictly equal to the one in oldProps
(lines 407). -/
def identicalKeys (newProps oldProps : Props) : List String :=
  (newProps.filter (fun kv =>
    match lookupProp oldProps kv.1 with
    | some w => jsStrictEq kv.2 w
    | none => false)).map Prod.fst

/-- The applicable props: newProps pruned of identical keys, handler keys and
the reserved keys children, key, ref (lines 411-417). -/
def applicableProps (newProps oldProps : Props) : Props :=
  pruneKeys newProps
    (identicalKeys newProps oldProps ++ (collectHandlers newProps).map Prod.fst ++
      [("children"), ("key"), ("ref")])

/-- The forEach body of applyProps over the applicable props (lines 421-444):
when the current target exposes set, pick copy / spread set / setScalar /
single set by the source's cascade and append the color conversion for colors;
otherwise assign the raw value as a plain field. -/
def applyLoop : Props → PInstance → List PropAction → PInstance × List PropAction
  | [], inst, acts => (inst, acts)
  | (key, value) :: rest, inst, acts =>
    match getField inst.fields key with
    | ITarget.settable ctor isColor hasSetScalar =>
        let acts1 :=
          if ctor == valCtorName value then acts ++ [PropAction.copy key]
          else if value.isArr then acts ++ [PropAction.setMulti key]
          else if !isColor && hasSetScalar then acts ++ [PropAction.setScalar key]
          else acts ++ [PropAction.setSingle key]
        let acts2 := if isColor then acts1 ++ [PropAction.convertColor key] else acts1
        applyLoop rest inst acts2
    | _ =>
        applyLoop rest
          { inst with fields := setField inst.fields key (ITarget.plainVal value) }
          (acts ++ [PropAction.assign key])

/-- applyProps of the article (lines 405-456): partition newProps, mutate the
instance over the applicable props, and, when at least one handler was
collected, store the rebuilt handler table on instance.__handlers. -/
def applyProps (inst : PInstance) (newProps oldProps : Props) :
    PInstance × List PropAction :=
  let props := applicableProps newProps oldProps
  let r := if props.length != 0 then applyLoop props inst [] else (inst, [])
  let inst2 :=
    if ((collectHandlers newProps).map Prod.fst).length != 0 then
      { r.1 with handlers := some (collectHandlers newProps) }
    else r.1
  (inst2, r.2)

/-! ## Scene mutator (appendChild, removeChild, insertBefore, lines 472-543) -/

/-- The value held by a named property of a scene instance: null, or a
reference to another object together with whether that object exposes a
dispose method.  An absent key models undefined. -/
inductive FieldV where
  | vnull
  | ref (id : Nat) (hasDispose : Bool)
deriving Repr, DecidableEq

/-- A live scene-graph instance as the scene mutator sees it: its identity,
its three.js type string (Scene, Mesh, ...), its attach prop, its enumerable
properties, its spatial children (by identity) and whether it exposes its own
dispose method. -/
structure SInstance where
  id : Nat
  type : String
  attach : Option String
  fields : List (String × FieldV)
  children : List Nat
  hasDispose : Bool
deriving Repr, DecidableEq

/-- Property read parentInstance[a]: undefined (none) when the key is absent. -/
def getSlot (fields : List (String × FieldV)) (a : String) : Option FieldV :=
  (fields.find? (fun kv => kv.1 == a)).map Prod.snd

/-- Assignment parentInstance[a] = v on an existing or new property. -/
def setSlot (fields : List (String × FieldV)) (a : String) (v : FieldV) :
    List (String × FieldV) :=
  match fields with
  | [] => [(a, v)]
  | kv :: rest => if kv.1 == a then (a, v) :: rest else kv :: setSlot rest a v

/-- The guard child.attach and parentInstance[child.attach] not undefined
shared by appendChild and removeChild: the attach string must be truthy
(non-empty) and the named property must exist on the parent (null counts as
existing, only an absent key is undefined). -/
def attachSlotActive (parentInstance : SInstance) (c : SInstance) : Bool :=
  match c.attach with
  | some a => a != ("") && (getSlot parentInstance.fields a).isSome
  | none => false

/-- appendChild (lines 476-485): a null child returns at once; an active
attach slot receives the child; otherwise parentInstance.add(child) appends
the child to the spatial children (THREE.Object3D.add pushes onto
this.children; reparenting bookkeeping on the child is not observed by any
claim). -/
def appendChild (parentInstance : SInstance) (child : Option SInstance) : SInstance :=
  match child with
  | none => parentInstance
  | some c =>
    if attachSlotActive parentInstance c then
      match c.attach with
      | some a =>
          { parentInstance with
              fields := setSlot parentInstance.fields a (FieldV.ref c.id c.hasDispose) }
      | none => parentInstance
    else
      { parentInstance with children := parentInstance.children ++ [c.id] }

/-- One recorded disposal performed by removeChild: the child's own dispose
call, or a dispose call on one of its properties. -/
inductive DisposeAction where
  | own (id : Nat)
  | sub (id : Nat) (property : String)
deriving Repr, DecidableEq

/-- In the loop for (const property in child) of removeChild, the loop
variable property is the property NAME, a string primitive; a JavaScript
string has no member named dispose, so property.dispose is undefined for
every property name. -/
def stringDisposeMember (property : String) : Option Unit := none

/-- The disposal block of removeChild (lines 501-509): for a child that is not
the Scene type, call child.dispose when present, then walk the child's
enumerable properties, calling property.dispose when that member exists (and
deleting each property, a mutation of the child no claim observes). -/
def disposeTrace (c : SInstance) : List DisposeAction :=
  if c.type != ("Scene") then
    (if c.hasDispose then [DisposeAction.own c.id] else []) ++
      c.fields.filterMap (fun kv =>
        if (stringDisposeMember kv.1).isSome then some (DisposeAction.sub c.id kv.1)
        else none)
  else []

/-- removeChild (lines 490-510): a null child returns at once; an active
attach slot is set to null, otherwise parentInstance.remove(child) deletes the
first occurrence of the child from the spatial children
(THREE.Object3D.remove splices at indexOf); then the disposal block runs.
Returns the mutated parent and the disposal trace. -/
def removeChild (parentInstance : SInstance) (child : Option SInstance) :
    SInstance × List DisposeAction :=
  match child with
  | none => (parentInstance, [])
  | some c =>
    let detached :=
      if attachSlotActive parentInstance c then
        match c.attach with
        | some a => { parentInstance with fields := setSlot parentInstance.fields a FieldV.vnull }
        | none => parentInstance
      else
        { parentInstance with children := parentInstance.children.erase c.id }
    (detached, disposeTrace c)

/-- JavaScript Array.prototype relative index: negative indices count from the
end clamped at 0, positive ones clamp at the length. -/
def jsRel (len : Nat) (k : Int) : Nat :=
  if k < 0 then ((len : Int) + k).toNat else min k.toNat len

/-- Array.prototype.slice(b, e). -/
def jsSlice (l : List Nat) (b e : Int) : List Nat :=
  (l.take (jsRel l.length e)).drop (jsRel l.length b)

/-- Array.prototype.slice(b) with one argument. -/
def jsSliceFrom (l : List Nat) (b : Int) : List Nat :=
  l.drop (jsRel l.length b)

/-- Array.prototype.indexOf: the first index of x, or -1 when absent. -/
def jsIndexOf (l : List Nat) (x : Nat) : Int :=
  match l with
  | [] => -1
  | y :: ys =>
      if y == x then 0
      else
        let r := jsIndexOf ys x
        if r < 0 then -1 else r + 1

/-- insertBefore (lines 529-543): a null child returns at once; otherwise the
child is spliced into parentInstance.children immediately before the index of
beforeChild (the child's prior position, if any, is not removed), and the
added event is dispatched on the child.  The assignment child.parent is
bookkeeping on the child that no claim observes.  Returns the mutated parent
and the dispatched event names. -/
def insertBefore (parentInstance : SInstance) (child : Option SInstance)
    (beforeChild : Nat) : SInstance × List String :=
  match child with
  | none => (parentInstance, [])
  | some c =>
    let index := jsIndexOf parentInstance.children beforeChild
    let cs := jsSlice parentInstance.children 0 index ++ c.id ::
      jsSliceFrom parentInstance.children index
    ({ parentInstance with children := cs }, [("added")])

/-! ## Render-loop subscription (lines 613-629) -/

/-- The subscribe closure stored on the state by render (lines 614-620):
if the ref is already in state.subscribed it is filtered out, otherwise it is
pushed.  Refs are compared by identity, modelled as Nat. -/
def subscribeToggle (subscribed : List Nat) (ref : Nat) : List Nat :=
  if subscribed.contains ref then subscribed.filter (fun callback => callback != ref)
  else subscribed ++ [ref]

/-- The refs invoked by one tick of the animation loop registered by render
(lines 623-629): the loop walks state.subscribed and calls ref.current when
that is a function (current gives each ref's current function, none when the
ref holds no function), then renders the scene. -/
def tickInvoked (subscribed : List Nat) (current : Nat → Option Nat) : List Nat :=
  subscribed.filter (fun ref => (current ref).isSome)

/-! ## Event manager (lines 701-801)

The events object declares one module-level table, const hovered (line 719),
shared by every connected canvas; connect stores a fresh mouse vector and
raycaster on each state but creates no per-state hovered table.  handleEvent
receives the intersections computed by the surface's raycaster for the event
(the coordinate conversion and ray cast are the per-surface input) and is
embedded from the isHoverEvent line on.  A member access on an undefined
__handlers raises a TypeError, modelled with Except. -/

/-- An intersected scene object as handleEvent sees it: its uuid and its
out-of-band __handlers table (none models the property being absent, which is
the case for every instance to which applyProps never applied a handler
prop). -/
structure EObj where
  uuid : Nat
  handlers : Option (List (String × Nat))
deriving Repr, DecidableEq

/-- The module-level hovered table: uuid keys mapping to the hovered object,
in insertion order. -/
abbrev Hovered := List (Nat × EObj)

/-- Read hovered[uuid]. -/
def hoverLookup (h : Hovered) (u : Nat) : Option EObj :=
  (h.find? (fun p => p.1 == u)).map Prod.snd

/-- Assignment hovered[uuid] = o: replace an existing key in place, append a
new one. -/
def hoverSet (h : Hovered) (u : Nat) (o : EObj) : Hovered :=
  if (h.find? (fun p => p.1 == u)).isSome then
    h.map (fun p => if p.1 == u then (u, o) else p)
  else h ++ [(u, o)]

/-- delete hovered[uuid]. -/
def hoverDelete (h : Hovered) (u : Nat) : Hovered :=
  h.filter (fun p => p.1 != u)

/-- Read handlers[k] on a handler table. -/
def handlerLookup (hs : List (String × Nat)) (k : String) : Option Nat :=
  (hs.find? (fun kv => kv.1 == k)).map Prod.snd

/-- One dispatched handler call: the uuid of the receiving object and the
handler key invoked. -/
inductive Dispatch where
  | call (uuid : Nat) (key : String)
deriving Repr, DecidableEq

/-- The intersects.forEach body of handleEvent (lines 744-758).  For the
hover event type, a not-yet-hovered object is first marked hovered and then
its __handlers member is read: when that property is absent the read
handlers.onHover throws a TypeError.  For the other event types the condition
handlers[type] likewise throws when __handlers is absent; when the table
exists but lacks the key, the object is skipped. -/
def dispatchLoop (isHoverEvent : Bool) (etype : String) :
    List EObj → Hovered → List Dispatch → Except String (Hovered × List Dispatch)
  | [], hovered, trace => Except.ok (hovered, trace)
  | o :: rest, hovered, trace =>
    if isHoverEvent && (hoverLookup hovered o.uuid).isNone then
      let hovered1 := hoverSet hovered o.uuid o
      match o.handlers with
      | none => Except.error ("TypeError: Cannot read properties of undefined")
      | some handlers =>
        let t1 :=
          if (handlerLookup handlers ("onHover")).isSome then
            trace ++ [Dispatch.call o.uuid ("onHover")]
          else trace
        let t2 :=
          if (handlerLookup handlers ("onPointerOver")).isSome then
            t1 ++ [Dispatch.call o.uuid ("onPointerOver")]
          else t1
        dispatchLoop isHoverEvent etype rest hovered1 t2
    else if !isHoverEvent then
      match o.handlers with
      | none => Except.error ("TypeError: Cannot read properties of undefined")
      | some handlers =>
        if (handlerLookup handlers etype).isSome then
          dispatchLoop isHoverEvent etype rest hovered (trace ++ [Dispatch.call o.uuid etype])
        else dispatchLoop isHoverEvent etype rest hovered trace
    else dispatchLoop isHoverEvent etype rest hovered trace

/-- The stale-hover cleanup of handleEvent (lines 761-771): walk the snapshot
Object.values(hovered); each object no longer intersected is deleted from
hovered and, after the read handlers.onPointerOut (a TypeError when
__handlers is absent), receives pointer-out dispatch when it carries that
handler. -/
def cleanupLoop (intersects : List EObj) :
    List EObj → Hovered → List Dispatch → Except String (Hovered × List Dispatch)
  | [], hovered, trace => Except.ok (hovered, trace)
  | o :: rest, hovered, trace =>
    if intersects.isEmpty || (intersects.find? (fun i => i == o)).isNone then
      let hovered1 := hoverDelete hovered o.uuid
      match o.handlers with
      | none => Except.error ("TypeError: Cannot read properties of undefined")
      | some handlers =>
        if (handlerLookup handlers ("onPointerOut")).isSome then
          cleanupLoop intersects rest hovered1 (trace ++ [Dispatch.call o.uuid ("onPointerOut")])
        else cleanupLoop intersects rest hovered1 trace
    else cleanupLoop intersects rest hovered trace

/-- handleEvent (lines 731-774) from the isHoverEvent test on: run the
dispatch pass over the intersections, then, for the hijacked mousemove hover
event, the stale-hover cleanup over the current hovered values.  It threads
the module-level hovered table (shared by all surfaces) and yields the new
table and the dispatch trace, or the TypeError that escaped. -/
def handleEvent (hovered : Hovered) (etype : String) (intersects : List EObj) :
    Except String (Hovered × List Dispatch) :=
  let isHoverEvent := etype == ("hoverEvent")
  match dispatchLoop isHoverEvent etype intersects hovered [] with
  | Except.error e => Except.error e
  | Except.ok (h, t) =>
    if isHoverEvent then cleanupLoop intersects (h.map Prod.snd) h t
    else Except.ok (h, t)

/-! ## Root lifecycle (render lines 552-649, unmountComponentAtNode 812-834) -/

/-- The WebGL renderer as the lifecycle code observes it: whether an
animation loop is installed, whether the context was force-lost and whether
dispose was called. -/
structure WebGLRenderer where
  animationLoop : Bool
  contextLost : Bool
  disposed : Bool
deriving Repr, DecidableEq

/-- The per-canvas state bundle built by render.  render stores the created
WebGL renderer ONLY under the field gl (line 581); no property named renderer
is ever written, so that field stays none.  events records whether an event
manager was supplied, listeners whether canvas.__listeners is populated. -/
structure RootState where
  gl : Option WebGLRenderer
  renderer : Option WebGLRenderer
  events : Bool
  listeners : Bool
  subscribed : List Nat
deriving Repr, DecidableEq

/-- An entry of the module-level roots map. -/
structure Store where
  state : RootState
deriving Repr, DecidableEq

/-- roots.get. -/
def rootsGet (roots : List (Nat × Store)) (canvas : Nat) : Option Store :=
  (roots.find? (fun p => p.1 == canvas)).map Prod.snd

/-- roots.set. -/
def rootsSet (roots : List (Nat × Store)) (canvas : Nat) (s : Store) :
    List (Nat × Store) :=
  if (roots.find? (fun p => p.1 == canvas)).isSome then
    roots.map (fun p => if p.1 == canvas then (canvas, s) else p)
  else roots ++ [(canvas, s)]

/-- roots.delete. -/
def rootsDelete (roots : List (Nat × Store)) (canvas : Nat) : List (Nat × Store) :=
  roots.filter (fun p => p.1 != canvas)

/-- render (lines 564-649), restricted to its lifecycle effects: on the first
call for a canvas it creates the renderer into state.gl, starts the animation
loop with setAnimationLoop, connects the supplied event manager (populating
the canvas listeners) and records the store in roots; on later calls it
reuses the stored state (the three.js construction details, sizing and the
reconciliation of the element tree are not observed by the lifecycle
claims). -/
def render (roots : List (Nat × Store)) (canvas : Nat) (events : Bool) :
    List (Nat × Store) :=
  match rootsGet roots canvas with
  | some _ => roots
  | none =>
    let state : RootState :=
      { gl := some { animationLoop := true, contextLost := false, disposed := false }
        renderer := none
        events := events
        listeners := events
        subscribed := [] }
    rootsSet roots canvas { state := state }

/-- unmountComponentAtNode (lines 816-834): with no store for the canvas it
returns at once; otherwise the teardown callback disconnects the event
manager when present, then reads state.renderer to stop the loop, lose the
context and dispose -- a member access that throws a TypeError whenever that
field is undefined, leaving the loop running and the canvas in roots.
Returns the roots map after the call together with the error that escaped, if
any. -/
def unmountComponentAtNode (roots : List (Nat × Store)) (canvas : Nat) :
    List (Nat × Store) × Option String :=
  match rootsGet roots canvas with
  | none => (roots, none)
  | some store =>
    let st := store.state
    let st1 := if st.events then { st with listeners := false } else st
    match st1.renderer with
    | none =>
        (rootsSet roots canvas { state := st1 },
          some ("TypeError: Cannot read properties of undefined"))
    | some r =>
        let _ := { r with animationLoop := false, contextLost := true, disposed := true }
        (rootsDelete roots canvas, none)

/-! ## Helper lemmas -/

/-- Strict equality of a JavaScript value with itself holds (no floating
NaN values occur in the model). -/
theorem jsStrictEq_refl (v : PropVal) : jsStrictEq v v = true := by
  cases v <;> simp [jsStrictEq]

/-- On a props object with unique keys, reading the key of an entry yields
that entry's value. -/
theorem lookupProp_self {p : Props} (h : (p.map Prod.fst).Nodup)
    {kv : String × PropVal} (hm : kv ∈ p) : lookupProp p kv.1 = some kv.2 := by
  induction p with
  | nil => cases hm
  | cons q rest ih =>
    rw [List.map_cons, List.nodup_cons] at h
    rcases List.mem_cons.mp hm with he | hm2
    · subst he
      unfold lookupProp
      rw [List.find?_cons_of_pos _ (by simp)]
      rfl
    · have hne : (q.1 == kv.1) = false := by
        refine beq_eq_false_iff_ne.mpr ?_
        intro he2
        exact h.1 (he2 ▸ List.mem_map_of_mem Prod.fst hm2)
      unfold lookupProp
      rw [List.find?_cons_of_neg _ (by simp [hne])]
      exact ih h.2 hm2

/-- With newProps equal to oldProps (and unique keys), every key is identical,
so the applicable props are empty. -/
theorem applicableProps_self {p : Props} (h : (p.map Prod.fst).Nodup) :
    applicableProps p p = [] := by
  unfold applicableProps pruneKeys
  refine List.filter_eq_nil_iff.mpr ?_
  intro kv hkv
  have hkey : kv.1 ∈ identicalKeys p p := by
    unfold identicalKeys
    refine List.mem_map_of_mem Prod.fst ?_
    refine List.mem_filter.mpr ⟨hkv, ?_⟩
    rw [lookupProp_self h hkv]
    exact jsStrictEq_refl kv.2
  simp [hkey]

/-- The mutation loop of applyProps never touches the handler table. -/
theorem applyLoop_handlers_eq (props : Props) :
    ∀ (inst : PInstance) (acts : List PropAction),
      (applyLoop props inst acts).1.handlers = inst.handlers := by
  induction props with
  | nil => intro inst acts; rfl
  | cons kv rest ih =>
    intro inst acts
    obtain ⟨key, value⟩ := kv
    simp only [applyLoop]
    split
    · exact ih _ _
    · exact ih _ _

/-! ## Claim theorems -/

/-- C10: appendChild, removeChild and insertBefore are no-ops on a null or
undefined child: each returns at once, raising nothing and leaving the
parent's spatial child collection and attachment slots untouched. -/
theorem null_child_mutations_noop (parentInstance : SInstance) (beforeChild : Nat) :
    appendChild parentInstance none = parentInstance ∧
    removeChild parentInstance none = (parentInstance, []) ∧
    insertBefore parentInstance none beforeChild = (parentInstance, []) :=
  ⟨rfl, rfl, rfl⟩

/-- C3: the disposal block of removeChild evaluated at a mesh child owning a
disposable geometry and a disposable material: the only disposal performed is
the child's own dispose (and it runs first); no sub-resource dispose is ever
invoked, because the for..in check reads dispose on the property name
string. -/
theorem removeChild_skips_subresource_dispose :
    removeChild
      { id := 1, type := ("Object3D"), attach := none, fields := [],
        children := [3], hasDispose := false }
      (some { id := 3, type := ("Mesh"), attach := none,
              fields := [(("geometry"), FieldV.ref 10 true),
                         (("material"), FieldV.ref 11 true)],
              children := [], hasDispose := true }) =
      ({ id := 1, type := ("Object3D"), attach := none, fields := [],
         children := [], hasDispose := false },
       [DisposeAction.own 3]) := by
  decide

/-- C1: the lifecycle evaluated at the failing input: after mounting canvas 0
with an event manager, unmountComponentAtNode throws a TypeError (render
stored the renderer only under state.gl, the teardown reads state.renderer),
so when it returns the event listeners are disconnected but the animation
loop is still installed, the context is neither lost nor disposed, and the
canvas is still tracked in roots. -/
theorem unmount_reads_missing_renderer :
    (unmountComponentAtNode (render [] 0 true) 0).2.isSome = true ∧
    rootsGet (unmountComponentAtNode (render [] 0 true) 0).1 0 =
      some { state :=
        { gl := some { animationLoop := true, contextLost := false, disposed := false },
          renderer := none, events := true, listeners := false, subscribed := [] } } := by
  decide

/-- C5 fails as stated: applyProps with a newProps mapping containing no
handler keys leaves the instance's previous handler table in place instead of
replacing it with the (empty) collected handlers. -/
theorem applyProps_handlers_not_cleared_cex :
    ((applyProps
        { fields := [], handlers := some [(("onClick"), PropVal.func 0)] }
        [(("visible"), PropVal.num 1)] []).1.handlers =
      some [(("onClick"), PropVal.func 0)]) ∧
    collectHandlers [(("visible"), PropVal.num 1)] = [] ∧
    (some [(("onClick"), PropVal.func 0)] : Option Props) ≠ some [] ∧
    (some [(("onClick"), PropVal.func 0)] : Option Props) ≠ none := by
  decide

/-- C5 amended: the collected handlers replace the instance's out-of-band
handler table wholesale whenever newProps contains at least one handler
entry; when newProps contains none, the previous table is left unchanged
rather than cleared. -/
theorem applyProps_handlers_replacement (inst : PInstance) (newProps oldProps : Props) :
    (applyProps inst newProps oldProps).1.handlers =
      if collectHandlers newProps = [] then inst.handlers
      else some (collectHandlers newProps) := by
  unfold applyProps
  cases hc : collectHandlers newProps with
  | nil =>
    simp only [hc, List.map_nil, List.length_nil, if_pos rfl]
    norm_num
    split
    all_goals first
      | rfl
      | exact applyLoop_handlers_eq _ _ _
  | cons q qs =>
    simp [hc]

/-- C9: applying a well-formed props mapping against itself is a no-op on the
instance: the recorded action trace is empty (no copy, multi-argument set,
scalar set, single set or plain assignment for any key) and the fields are
untouched. -/
theorem applyProps_self_noop (inst : PInstance) (p : Props)
    (h : (p.map Prod.fst).Nodup) :
    (applyProps inst p p).2 = [] ∧ (applyProps inst p p).1.fields = inst.fields := by
  unfold applyProps
  rw [applicableProps_self h]
  norm_num
  split <;> simp

/-- C9 witness: a concrete mesh-like props mapping applied against itself. -/
theorem applyProps_self_noop_witness :
    (([(("position"), PropVal.arr 0), (("onClick"), PropVal.func 1)].map
        (Prod.fst (α := String) (β := PropVal))).Nodup) ∧
    ((applyProps
        { fields := [(("position"), ITarget.settable ("Vector3") false true)],
          handlers := none }
        [(("position"), PropVal.arr 0), (("onClick"), PropVal.func 1)]
        [(("position"), PropVal.arr 0), (("onClick"), PropVal.func 1)]).2 = [] ∧
      (applyProps
        { fields := [(("position"), ITarget.settable ("Vector3") false true)],
          handlers := none }
        [(("position"), PropVal.arr 0), (("onClick"), PropVal.func 1)]
        [(("position"), PropVal.arr 0), (("onClick"), PropVal.func 1)]).1.fields =
        [(("position"), ITarget.settable ("Vector3") false true)]) :=
  ⟨by decide,
    applyProps_self_noop
      { fields := [(("position"), ITarget.settable ("Vector3") false true)],
        handlers := none }
      [(("position"), PropVal.arr 0), (("onClick"), PropVal.func 1)]
      (by decide)⟩

/-- C8 fails as stated: after appending meshA (id 1) then meshB (id 2) and
calling insertBefore(parent, meshB, meshA), the resulting child order is
[2, 1, 2], not [2, 1]: the splice does not remove meshB's prior position. -/
theorem insertBefore_duplicates_existing_child_cex :
    ((insertBefore
        (appendChild
          (appendChild
            { id := 0, type := ("Scene"), attach := none, fields := [],
              children := [], hasDispose := false }
            (some { id := 1, type := ("Mesh"), attach := none, fields := [],
                    children := [], hasDispose := true }))
          (some { id := 2, type := ("Mesh"), attach := none, fields := [],
                  children := [], hasDispose := true }))
        (some { id := 2, type := ("Mesh"), attach := none, fields := [],
                children := [], hasDispose := true })
        1).1.children = [2, 1, 2]) ∧
    ([2, 1, 2] : List Nat) ≠ [2, 1] := by
  decide

/-- Reading a slot just written yields the written value. -/
theorem getSlot_setSlot (f : List (String × FieldV)) (a : String) (v : FieldV) :
    getSlot (setSlot f a v) a = some v := by
  induction f with
  | nil =>
    unfold setSlot getSlot
    rw [List.find?_cons_of_pos _ (by simp)]
    rfl
  | cons kv rest ih =>
    unfold setSlot
    by_cases h : (kv.1 == a) = true
    · rw [if_pos h]
      unfold getSlot
      rw [List.find?_cons_of_pos _ (by simp)]
      rfl
    · rw [if_neg h]
      unfold getSlot
      rw [List.find?_cons_of_neg _ (by simpa using h)]
      exact ih

/-- Writing a slot twice keeps only the second write. -/
theorem setSlot_setSlot (f : List (String × FieldV)) (a : String) (v w : FieldV) :
    setSlot (setSlot f a v) a w = setSlot f a w := by
  induction f with
  | nil => simp [setSlot]
  | cons kv rest ih =>
    by_cases h : (kv.1 == a) = true
    · simp [setSlot, h]
    · simp [setSlot, h, ih]

/-- Writing back the value a slot already holds changes nothing. -/
theorem setSlot_of_getSlot (f : List (String × FieldV)) (a : String) (v : FieldV)
    (h : getSlot f a = some v) : setSlot f a v = f := by
  induction f with
  | nil =>
    unfold getSlot at h
    simp at h
  | cons kv rest ih =>
    obtain ⟨k1, v1⟩ := kv
    by_cases hb : ((k1, v1).1 == a) = true
    · have ha : k1 = a := by simpa using hb
      have hv : v1 = v := by
        unfold getSlot at h
        rw [List.find?_cons_of_pos _ (by simpa using hb)] at h
        simpa using h
      unfold setSlot
      rw [if_pos hb, ha, hv]
    · unfold getSlot at h
      rw [List.find?_cons_of_neg _ (by simpa using hb)] at h
      unfold setSlot
      rw [if_neg hb]
      rw [ih h]

/-- C6 fails as stated: a mesh parent whose geometry slot holds object 7;
appending a geometry child (attach geometry) and then removing it leaves the
slot null, not the prior object 7. -/
theorem append_remove_attach_slot_cex :
    (removeChild
        (appendChild
          { id := 1, type := ("Mesh"), attach := none,
            fields := [(("geometry"), FieldV.ref 7 true)], children := [],
            hasDispose := true }
          (some { id := 3, type := ("BoxGeometry"), attach := some ("geometry"),
                  fields := [], children := [], hasDispose := true }))
        (some { id := 3, type := ("BoxGeometry"), attach := some ("geometry"),
                fields := [], children := [], hasDispose := true })).1 ≠
      { id := 1, type := ("Mesh"), attach := none,
        fields := [(("geometry"), FieldV.ref 7 true)], children := [],
        hasDispose := true } := by
  decide

/-- C6 amended: appending then removing the same child restores the parent
exactly when the child is taken as a spatial child (no active attach slot)
and was not already among the children; when the child lands in an active
attach slot, removeChild writes null into the slot, so the prior state is
restored exactly when that slot already held null. -/
theorem append_remove_roundtrip (parentInstance c : SInstance) :
    (attachSlotActive parentInstance c = false → c.id ∉ parentInstance.children →
      (removeChild (appendChild parentInstance (some c)) (some c)).1 = parentInstance) ∧
    (∀ a, c.attach = some a → a ≠ ("") →
      getSlot parentInstance.fields a = some FieldV.vnull →
      (removeChild (appendChild parentInstance (some c)) (some c)).1 = parentInstance) := by
  constructor
  · intro hinact hnm
    have hact2 : attachSlotActive
        { parentInstance with children := parentInstance.children ++ [c.id] } c = false := by
      unfold attachSlotActive at hinact ⊢
      exact hinact
    simp [appendChild, removeChild, hinact, hact2, List.erase_append_right _ hnm]
  · intro a ha hne hnull
    have hbne : (a != ("")) = true := bne_iff_ne.mpr hne
    have hact : attachSlotActive parentInstance c = true := by
      simp [attachSlotActive, ha, hbne, hnull]
    have hact2 : attachSlotActive
        { parentInstance with
            fields := setSlot parentInstance.fields a (FieldV.ref c.id c.hasDispose) } c =
        true := by
      simp [attachSlotActive, ha, hbne, getSlot_setSlot]
    simp [appendChild, removeChild, hact, hact2, ha, setSlot_setSlot,
      setSlot_of_getSlot _ _ _ hnull]

/-- C6 witness: a mesh parent whose geometry slot holds null round-trips a
geometry child through appendChild and removeChild back to its prior
state. -/
theorem append_remove_roundtrip_witness :
    (removeChild
        (appendChild
          { id := 1, type := ("Mesh"), attach := none,
            fields := [(("geometry"), FieldV.vnull)], children := [],
            hasDispose := true }
          (some { id := 3, type := ("BoxGeometry"), attach := some ("geometry"),
                  fields := [], children := [], hasDispose := true }))
        (some { id := 3, type := ("BoxGeometry"), attach := some ("geometry"),
                fields := [], children := [], hasDispose := true })).1 =
      { id := 1, type := ("Mesh"), attach := none,
        fields := [(("geometry"), FieldV.vnull)], children := [],
        hasDispose := true } :=
  (append_remove_roundtrip
      { id := 1, type := ("Mesh"), attach := none,
        fields := [(("geometry"), FieldV.vnull)], children := [],
        hasDispose := true }
      { id := 3, type := ("BoxGeometry"), attach := some ("geometry"),
        fields := [], children := [], hasDispose := true }).2
    ("geometry") rfl (by decide) (by decide)

/-- C7: toggling subscription twice with the same ref restores the subscriber
list: membership is restored in every case, the list itself is restored
verbatim when the ref was not subscribed before, and one tick of the
animation loop only ever invokes refs currently in the subscriber list. -/
theorem subscribe_toggle_and_loop_membership (subscribed : List Nat) (ref : Nat) :
    (∀ x, x ∈ subscribeToggle (subscribeToggle subscribed ref) ref ↔ x ∈ subscribed) ∧
    (ref ∉ subscribed → subscribeToggle (subscribeToggle subscribed ref) ref = subscribed) ∧
    (∀ current x, x ∈ tickInvoked subscribed current → x ∈ subscribed) := by
  have hnot : ref ∉ subscribed →
      subscribeToggle (subscribeToggle subscribed ref) ref = subscribed := by
    intro hr
    have h1 : subscribed.contains ref = false := by
      rw [Bool.eq_false_iff]
      intro hc
      exact hr (List.elem_iff.mp hc)
    have e1 : subscribeToggle subscribed ref = subscribed ++ [ref] := by
      unfold subscribeToggle
      rw [h1]
      simp
    rw [e1]
    have h2 : (subscribed ++ [ref]).contains ref = true := by
      refine List.elem_iff.mpr ?_
      simp
    unfold subscribeToggle
    rw [h2]
    simp only [if_true]
    rw [List.filter_append]
    have h3 : subscribed.filter (fun callback => callback != ref) = subscribed :=
      List.filter_eq_self.mpr (fun x hx => bne_iff_ne.mpr (fun he => hr (he ▸ hx)))
    rw [h3]
    simp
  refine ⟨?_, hnot, ?_⟩
  · intro x
    by_cases hm : ref ∈ subscribed
    · have h1 : subscribed.contains ref = true := List.elem_iff.mpr hm
      have e1 : subscribeToggle subscribed ref =
          subscribed.filter (fun callback => callback != ref) := by
        unfold subscribeToggle
        rw [h1]
        simp
      have h2 : (subscribed.filter (fun callback => callback != ref)).contains ref =
          false := by
        rw [Bool.eq_false_iff]
        intro hc
        have hmem := List.elem_iff.mp hc
        have := (List.mem_filter.mp hmem).2
        simp at this
      have e2 : subscribeToggle (subscribeToggle subscribed ref) ref =
          subscribed.filter (fun callback => callback != ref) ++ [ref] := by
        rw [e1]
        unfold subscribeToggle
        rw [h2]
        simp
      rw [e2]
      simp only [List.mem_append, List.mem_filter, List.mem_singleton]
      by_cases hx : x = ref
      · subst hx
        simp [hm]
      · simp [hx, bne_iff_ne]
    · rw [hnot hm]
  · intro current x hx
    exact (List.mem_filter.mp hx).1

/-- C7 witness: a ref not subscribed before, toggled twice on a concrete
list. -/
theorem subscribe_toggle_witness :
    (3 ∉ ([7] : List Nat)) ∧ subscribeToggle (subscribeToggle [7] 3) 3 = [7] :=
  ⟨by decide, (subscribe_toggle_and_loop_membership [7] 3).2.1 (by decide)⟩

/-- The index computed by Array.prototype.indexOf for a present element: a
valid position holding the element, with no earlier occurrence. -/
theorem jsIndexOf_spec {l : List Nat} {b : Nat} (h : b ∈ l) :
    ∃ i : Nat, jsIndexOf l b = (i : Int) ∧ l.get? i = some b ∧ b ∉ l.take i := by
  induction l with
  | nil => cases h
  | cons y ys ih =>
    by_cases hy : (y == b) = true
    · refine ⟨0, ?_, ?_, by simp⟩
      · unfold jsIndexOf
        rw [if_pos hy]
        rfl
      · have he : y = b := by simpa using hy
        simp [he]
    · have hb : b ∈ ys := by
        rcases List.mem_cons.mp h with he | hm
        · exact absurd (by simp [he]) hy
        · exact hm
      obtain ⟨i, hi, hg, ht⟩ := ih hb
      refine ⟨i + 1, ?_, by simpa using hg, ?_⟩
      · unfold jsIndexOf
        rw [if_neg hy]
        simp only [hi]
        rw [if_neg (by omega)]
        push_cast
        ring
      · intro hmem
        rw [List.take_succ_cons] at hmem
        rcases List.mem_cons.mp hmem with he | hm
        · exact hy (by simp [he])
        · exact ht hm

/-- C8 amended: for a beforeChild present among the children, insertBefore
splices the child immediately before the first occurrence of beforeChild
(without removing any prior occurrence of the child) and dispatches the
added notification. -/
theorem insertBefore_splices_before_first_occurrence
    (parentInstance c : SInstance) (beforeChild : Nat)
    (h : beforeChild ∈ parentInstance.children) :
    ∃ i : Nat,
      jsIndexOf parentInstance.children beforeChild = (i : Int) ∧
      (insertBefore parentInstance (some c) beforeChild).1.children =
        parentInstance.children.take i ++ c.id :: parentInstance.children.drop i ∧
      parentInstance.children.get? i = some beforeChild ∧
      beforeChild ∉ parentInstance.children.take i ∧
      (insertBefore parentInstance (some c) beforeChild).2 = [("added")] := by
  obtain ⟨i, hi, hg, ht⟩ := jsIndexOf_spec h
  have hlen : i < parentInstance.children.length := by
    by_contra hge
    rw [List.get?_eq_none.mpr (Nat.le_of_not_lt hge)] at hg
    cases hg
  refine ⟨i, hi, ?_, hg, ht, rfl⟩
  have h0 : jsRel parentInstance.children.length 0 = 0 := by
    simp [jsRel]
  have hri : jsRel parentInstance.children.length ((i : Nat) : Int) = i := by
    unfold jsRel
    rw [if_neg (by omega)]
    simp [Nat.min_eq_left (Nat.le_of_lt hlen)]
  simp [insertBefore, jsSlice, jsSliceFrom, hi, h0, hri]

/-- C8 amended witness: splicing mesh 9 before the first occurrence of child
2 in the concrete child list of mesh 1 and mesh 2. -/
theorem insertBefore_splices_witness :
    (2 ∈ ([1, 2] : List Nat)) ∧
    (∃ i : Nat,
      jsIndexOf ([1, 2] : List Nat) 2 = (i : Int) ∧
      (insertBefore
          { id := 0, type := ("Scene"), attach := none, fields := [],
            children := [1, 2], hasDispose := false }
          (some { id := 9, type := ("Mesh"), attach := none, fields := [],
                  children := [], hasDispose := true }) 2).1.children =
        ([1, 2] : List Nat).take i ++ 9 :: ([1, 2] : List Nat).drop i ∧
      ([1, 2] : List Nat).get? i = some 2 ∧
      2 ∉ ([1, 2] : List Nat).take i ∧
      (insertBefore
          { id := 0, type := ("Scene"), attach := none, fields := [],
            children := [1, 2], hasDispose := false }
          (some { id := 9, type := ("Mesh"), attach := none, fields := [],
                  children := [], hasDispose := true }) 2).2 = [("added")]) :=
  ⟨by decide,
    insertBefore_splices_before_first_occurrence
      { id := 0, type := ("Scene"), attach := none, fields := [],
        children := [1, 2], hasDispose := false }
      { id := 9, type := ("Mesh"), attach := none, fields := [],
        children := [], hasDispose := true }
      2 (by decide)⟩

/-- The dispatch trace handleEvent produces for a generic (non-hover) event:
one call per intersected object carrying the matching handler. -/
def genericDispatches (etype : String) (intersects : List EObj) : List Dispatch :=
  intersects.filterMap (fun o =>
    match o.handlers with
    | some hs =>
        if (handlerLookup hs etype).isSome then some (Dispatch.call o.uuid etype)
        else none
    | none => none)

/-- For a generic event over objects that all carry handler tables, the
dispatch pass succeeds, leaves the hovered table unchanged and appends
exactly the matched-handler calls. -/
theorem dispatchLoop_generic (etype : String) :
    ∀ (intersects : List EObj) (hovered : Hovered) (trace : List Dispatch),
      (∀ o ∈ intersects, o.handlers.isSome = true) →
      dispatchLoop false etype intersects hovered trace =
        Except.ok (hovered, trace ++ genericDispatches etype intersects) := by
  intro intersects
  induction intersects with
  | nil =>
    intro hovered trace _
    simp [dispatchLoop, genericDispatches]
  | cons o rest ih =>
    intro hovered trace hall
    have ho : o.handlers.isSome = true := hall o (by simp)
    obtain ⟨hs, hhs⟩ := Option.isSome_iff_exists.mp ho
    have hrest : ∀ o2 ∈ rest, o2.handlers.isSome = true :=
      fun o2 h2 => hall o2 (by simp [h2])
    have hgc : genericDispatches etype (o :: rest) =
        (if (handlerLookup hs etype).isSome then [Dispatch.call o.uuid etype] else []) ++
          genericDispatches etype rest := by
      by_cases hl : (handlerLookup hs etype).isSome = true <;>
        simp [genericDispatches, List.filterMap_cons, hhs, hl]
    have hstep : dispatchLoop false etype (o :: rest) hovered trace =
        (if (handlerLookup hs etype).isSome then
          dispatchLoop false etype rest hovered (trace ++ [Dispatch.call o.uuid etype])
         else dispatchLoop false etype rest hovered trace) := by
      simp [dispatchLoop, hhs]
    rw [hstep]
    by_cases hl : (handlerLookup hs etype).isSome = true
    · rw [if_pos hl, ih _ _ hrest, hgc, if_pos hl]
      simp
    · rw [if_neg hl, ih _ _ hrest, hgc, if_neg hl]
      simp

/-- Objects written into the hovered table by hoverSet satisfy what the table
and the written object satisfy. -/
theorem hoverSet_forall (P : EObj → Prop) {h : Hovered} {u : Nat} {o : EObj}
    (hh : ∀ p ∈ h, P p.2) (ho : P o) : ∀ p ∈ hoverSet h u o, P p.2 := by
  intro p hp
  unfold hoverSet at hp
  split at hp
  · rcases List.mem_map.mp hp with ⟨q, hq, he⟩
    by_cases hqe : (q.1 == u) = true
    · rw [if_pos hqe] at he
      rw [← he]
      exact ho
    · rw [if_neg hqe] at he
      rw [← he]
      exact hh q hq
  · rcases List.mem_append.mp hp with hq | hq
    · exact hh p hq
    · have he : p = (u, o) := by simpa using hq
      rw [he]
      exact ho

/-- For a hover event over objects that all carry handler tables (as do all
values already hovered), the dispatch pass succeeds and every value in the
resulting hovered table still carries a handler table. -/
theorem dispatchLoop_hover_ok (etype : String) :
    ∀ (intersects : List EObj) (hovered : Hovered) (trace : List Dispatch),
      (∀ o ∈ intersects, o.handlers.isSome = true) →
      (∀ p ∈ hovered, p.2.handlers.isSome = true) →
      ∃ h t, dispatchLoop true etype intersects hovered trace = Except.ok (h, t) ∧
        ∀ p ∈ h, p.2.handlers.isSome = true := by
  intro intersects
  induction intersects with
  | nil =>
    intro hovered trace _ hhov
    exact ⟨hovered, trace, rfl, hhov⟩
  | cons o rest ih =>
    intro hovered trace hall hhov
    have ho : o.handlers.isSome = true := hall o (by simp)
    obtain ⟨hs, hhs⟩ := Option.isSome_iff_exists.mp ho
    have hrest : ∀ o2 ∈ rest, o2.handlers.isSome = true :=
      fun o2 h2 => hall o2 (by simp [h2])
    by_cases hn : (hoverLookup hovered o.uuid).isNone = true
    · have hhov2 : ∀ p ∈ hoverSet hovered o.uuid o, p.2.handlers.isSome = true :=
        hoverSet_forall (fun e => e.handlers.isSome = true) hhov ho
      simp only [dispatchLoop, hhs, Bool.true_and, hn, if_true]
      exact ih _ _ hrest hhov2
    · simp only [dispatchLoop, Bool.true_and, hn, Bool.false_eq_true, if_false,
        Bool.not_true]
      exact ih _ _ hrest hhov

/-- The stale-hover cleanup succeeds whenever every snapshot object carries a
handler table. -/
theorem cleanupLoop_ok (intersects : List EObj) :
    ∀ (snapshot : List EObj) (hovered : Hovered) (trace : List Dispatch),
      (∀ o ∈ snapshot, o.handlers.isSome = true) →
      ∃ r, cleanupLoop intersects snapshot hovered trace = Except.ok r := by
  intro snapshot
  induction snapshot with
  | nil =>
    intro hovered trace _
    exact ⟨(hovered, trace), rfl⟩
  | cons o rest ih =>
    intro hovered trace hall
    have ho : o.handlers.isSome = true := hall o (by simp)
    obtain ⟨hs, hhs⟩ := Option.isSome_iff_exists.mp ho
    have hrest : ∀ o2 ∈ rest, o2.handlers.isSome = true :=
      fun o2 h2 => hall o2 (by simp [h2])
    by_cases hc : (intersects.isEmpty || (intersects.find? (fun i => i == o)).isNone) = true
    · simp only [cleanupLoop, hhs, hc, if_true]
      by_cases hp : (handlerLookup hs ("onPointerOut")).isSome = true
      · rw [if_pos hp]
        exact ih _ _ hrest
      · rw [if_neg hp]
        exact ih _ _ hrest
    · simp only [cleanupLoop, hc, Bool.false_eq_true, if_false]
      exact ih _ _ hrest

/-- C2 fails as stated: a generic click over an instance that carries no
out-of-band handler table at all makes handleEvent throw a TypeError instead
of silently skipping the instance. -/
theorem handleEvent_no_handler_mapping_throws :
    handleEvent [] ("onClick") [{ uuid := 1, handlers := none }] =
      Except.error ("TypeError: Cannot read properties of undefined") := by
  rfl

/-- C2 amended: when every intersected instance (and, for hover events, every
already-hovered instance) carries a handler table, handleEvent never errors;
and for a generic event it dispatches exactly to the instances whose table
holds the matching handler, silently skipping every other instance. -/
theorem handleEvent_total_and_skips_unhandled (hovered : Hovered) (etype : String)
    (intersects : List EObj)
    (hin : ∀ o ∈ intersects, o.handlers.isSome = true)
    (hhov : ∀ p ∈ hovered, p.2.handlers.isSome = true) :
    (∃ r, handleEvent hovered etype intersects = Except.ok r) ∧
    (etype ≠ ("hoverEvent") →
      handleEvent hovered etype intersects =
        Except.ok (hovered, genericDispatches etype intersects)) := by
  by_cases hh : (etype == ("hoverEvent")) = true
  · constructor
    · obtain ⟨h, t, hd, hvals⟩ := dispatchLoop_hover_ok etype intersects hovered [] hin hhov
      have hsnap : ∀ o ∈ h.map Prod.snd, o.handlers.isSome = true := by
        intro o hoo
        rcases List.mem_map.mp hoo with ⟨p, hp, he⟩
        rw [← he]
        exact hvals p hp
      obtain ⟨r, hr⟩ := cleanupLoop_ok intersects (h.map Prod.snd) h t hsnap
      refine ⟨r, ?_⟩
      simp only [handleEvent, hh, hd, if_true]
      exact hr
    · intro hne
      exact absurd (by simpa using hh) hne
  · have hfalse : (etype == ("hoverEvent")) = false := by
      rw [Bool.eq_false_iff]
      exact hh
    have hd := dispatchLoop_generic etype intersects hovered [] hin
    constructor
    · refine ⟨(hovered, genericDispatches etype intersects), ?_⟩
      simp only [handleEvent, hfalse, hd, Bool.false_eq_true, if_false]
      simp
    · intro _
      simp only [handleEvent, hfalse, hd, Bool.false_eq_true, if_false]
      simp

/-- C2 amended witness: a click over one instance with an empty handler table
(skipped silently) and one carrying onClick (dispatched). -/
theorem handleEvent_total_witness :
    handleEvent [] ("onClick")
        [{ uuid := 1, handlers := some [] },
         { uuid := 2, handlers := some [(("onClick"), 7)] }] =
      Except.ok ([], genericDispatches ("onClick")
        [{ uuid := 1, handlers := some [] },
         { uuid := 2, handlers := some [(("onClick"), 7)] }]) :=
  (handleEvent_total_and_skips_unhandled [] ("onClick")
      [{ uuid := 1, handlers := some [] },
       { uuid := 2, handlers := some [(("onClick"), 7)] }]
      (by decide) (by decide)).2 (by decide)

/-- C4 fails as stated: processing a hover event through one surface inserts
uuid 5 into the module-level hovered table (firing its hover-enter); the very
table any other surface's handling then receives is that changed, non-empty
table, and a second hover processing of the same intersection from the other
surface fires no hover-enter dispatch. -/
theorem hovered_shared_across_surfaces_cex :
    (handleEvent [] ("hoverEvent")
        [{ uuid := 5, handlers := some [(("onHover"), 0)] }] =
      Except.ok ([(5, { uuid := 5, handlers := some [(("onHover"), 0)] })],
        [Dispatch.call 5 ("onHover")])) ∧
    ([(5, ({ uuid := 5, handlers := some [(("onHover"), 0)] } : EObj))] : Hovered) ≠ [] ∧
    (handleEvent [(5, { uuid := 5, handlers := some [(("onHover"), 0)] })]
        ("hoverEvent") [{ uuid := 5, handlers := some [(("onHover"), 0)] }] =
      Except.ok ([(5, { uuid := 5, handlers := some [(("onHover"), 0)] })], [])) :=
  ⟨rfl, by decide, rfl⟩

/-- C4 amended: each Surface State owns its own raycaster and pointer
position, but the hovered table is a single module-level object shared by all
surfaces: once any surface's hover processing marks an instance hovered, a
hover event on any other surface over that instance observes the shared entry
and fires no hover-enter dispatch. -/
theorem hovered_global_suppresses_hover_enter (u : Nat) (hs : List (String × Nat)) :
    ∃ h1 t1,
      handleEvent [] ("hoverEvent") [{ uuid := u, handlers := some hs }] =
        Except.ok (h1, t1) ∧
      hoverLookup h1 u = some { uuid := u, handlers := some hs } ∧
      handleEvent h1 ("hoverEvent") [{ uuid := u, handlers := some hs }] =
        Except.ok (h1, []) := by
  by_cases h1 : (handlerLookup hs ("onHover")).isSome = true <;>
    by_cases h2 : (handlerLookup hs ("onPointerOver")).isSome = true <;>
    [refine ⟨[(u, { uuid := u, handlers := some hs })],
        [Dispatch.call u ("onHover"), Dispatch.call u ("onPointerOver")], ?_, ?_, ?_⟩;
     refine ⟨[(u, { uuid := u, handlers := some hs })],
        [Dispatch.call u ("onHover")], ?_, ?_, ?_⟩;
     refine ⟨[(u, { uuid := u, handlers := some hs })],
        [Dispatch.call u ("onPointerOver")], ?_, ?_, ?_⟩;
     refine ⟨[(u, { uuid := u, handlers := some hs })], [], ?_, ?_, ?_⟩] <;>
    simp [handleEvent, dispatchLoop, cleanupLoop, hoverSet, hoverLookup, hoverDelete,
      h1, h2, beq_self_eq_true']

end RTF
